import Mathlib

/-!
Shallow embedding of the TenantVoice repository (case data model, Case Store
reducer, create-issue flow, and the timeline layout computed by the
`TimelineChart` component), together with theorems settling the claims about
the natural-language specification.

Source files embedded:
  * `src/unnamed/part_002` (the type declarations: `Severity`, `IssueStatus`,
    `CommunicationMethod`, `LandlordContact`, `Lease`, `CaseMetadata`,
    `EvidenceItem`, `Issue`, `LandlordPromise`, `Communication`,
    `TenantCase`, `AIAnalysisResponse`);
  * `src/constants.ts` (`EMPTY_CASE`);
  * `src/App.tsx` (`caseReducer`, `handleUpdateMeta`, `handleCreateIssue`);
  * `src/unnamed/part_000` (`TimelineChart`: time domain, x scale, bars,
    communication markers).
-/

namespace TenantVoice

/-- `Severity` from `src/unnamed/part_002`. -/
inductive Severity
  | low
  | medium
  | high
  | emergency
  deriving DecidableEq, Repr

/-- `IssueStatus` from `src/unnamed/part_002`; the source value `'partial'`
is spelled `partialStatus` here because of Lean keyword restrictions. -/
inductive IssueStatus
  | ongoing
  | resolved
  | partialStatus
  deriving DecidableEq, Repr

/-- `CommunicationMethod` from `src/unnamed/part_002` (`'in-person'` is
spelled `inPerson`). -/
inductive CommunicationMethod
  | text
  | email
  | phone
  | portal
  | inPerson
  | letter
  | other
  deriving DecidableEq, Repr

/-- `LandlordContact` from `src/unnamed/part_002`. -/
structure LandlordContact where
  name : String
  phone : String
  email : String
  other : String
  deriving DecidableEq, Repr

/-- `Lease` from `src/unnamed/part_002`. -/
structure Lease where
  start_date : String
  end_date : String
  deriving DecidableEq, Repr

/-- `CaseMetadata` from `src/unnamed/part_002`. -/
structure CaseMetadata where
  id : String
  property_address : String
  landlord_contact : LandlordContact
  lease : Lease
  deriving DecidableEq, Repr

/-- `EvidenceItem` from `src/unnamed/part_002`. -/
structure EvidenceItem where
  id : String
  issue_id : String
  file_reference : String
  captured_at : String
  uploaded_at : String
  ai_caption : String
  user_caption : String
  deriving DecidableEq, Repr

/-- `Issue` from `src/unnamed/part_002`. -/
structure Issue where
  id : String
  title : String
  category : String
  room : String
  severity : Severity
  status : IssueStatus
  first_noticed_at : String
  description : String
  habitability_categories : List String
  deriving DecidableEq, Repr

/-- `LandlordPromise` from `src/unnamed/part_002` (`'partial'` spelled
`partialStatus`). -/
inductive PromiseStatus
  | kept
  | not_kept
  | partialStatus
  | unknown
  deriving DecidableEq, Repr

/-- `LandlordPromise` record from `src/unnamed/part_002`. -/
structure LandlordPromise where
  id : String
  description : String
  promised_completion_date : String
  promised_by : String
  status : PromiseStatus
  deriving DecidableEq, Repr

/-- `Communication` from `src/unnamed/part_002`. -/
structure Communication where
  id : String
  date : String
  method : CommunicationMethod
  tenant_message : String
  landlord_response : String
  linked_issue_ids : List String
  promises : List LandlordPromise
  deriving DecidableEq, Repr

/-- `TenantCase` from `src/unnamed/part_002`. -/
structure TenantCase where
  meta : CaseMetadata
  issues : List Issue
  evidence : List EvidenceItem
  communications : List Communication
  deriving DecidableEq, Repr

/-- `EMPTY_CASE` from `src/constants.ts`. -/
def EMPTY_CASE : TenantCase :=
  { meta :=
      { id := ""
        property_address := ""
        landlord_contact := { name := "", phone := "", email := "", other := "" }
        lease := { start_date := "", end_date := "" } }
    issues := []
    evidence := []
    communications := [] }

/-- A partial metadata object, the shape of the `UPDATE_META` payload in
`src/App.tsx`: a JS object that may carry any subset of the four
`CaseMetadata` fields.  An absent field is `none`; a present
`landlord_contact` or `lease` field carries a whole sub-object (the JS
spread `{ ...state.meta, ...action.payload }` replaces present fields
wholesale). -/
structure MetaPatch where
  id : Option String := none
  property_address : Option String := none
  landlord_contact : Option LandlordContact := none
  lease : Option Lease := none
  deriving DecidableEq, Repr

/-- The shallow merge `{ ...state.meta, ...action.payload }` performed by
the `UPDATE_META` case of `caseReducer` in `src/App.tsx`. -/
def mergeMeta (m : CaseMetadata) (p : MetaPatch) : CaseMetadata :=
  { id := p.id.getD m.id
    property_address := p.property_address.getD m.property_address
    landlord_contact := p.landlord_contact.getD m.landlord_contact
    lease := p.lease.getD m.lease }

/-- The `Action` union type of `src/App.tsx`.  `SET_REPORT` is declared in
the source's `Action` type but has no case in `caseReducer` (it falls to the
`default` branch, which returns the state unchanged). -/
inductive Action
  | updateMeta (payload : MetaPatch)
  | addIssue (payload : Issue)
  | addEvidence (payload : EvidenceItem)
  | addCommunication (payload : Communication)
  | setReport (snippet timeline pattern : String)
  | loadCase (payload : TenantCase)
  | resetCase
  deriving Repr

/-- `caseReducer` from `src/App.tsx`. -/
def caseReducer (state : TenantCase) : Action → TenantCase
  | .updateMeta p => { state with meta := mergeMeta state.meta p }
  | .addIssue i => { state with issues := state.issues ++ [i] }
  | .addEvidence e => { state with evidence := state.evidence ++ [e] }
  | .addCommunication c => { state with communications := state.communications ++ [c] }
  | .setReport _ _ _ => state
  | .loadCase c => c
  | .resetCase => EMPTY_CASE

/-- The four fields of `LandlordContact`, used to model the string field
paths (`"landlord_contact.name"` etc.) that `handleUpdateMeta` in
`src/App.tsx` receives from the metadata form. -/
inductive ContactField
  | name
  | phone
  | email
  | other
  deriving DecidableEq, Repr

/-- The two fields of `Lease`, for the `"lease.start_date"` /
`"lease.end_date"` field paths of `handleUpdateMeta`. -/
inductive LeaseField
  | start_date
  | end_date
  deriving DecidableEq, Repr

/-- The field paths accepted by `handleUpdateMeta` in `src/App.tsx`: a
top-level metadata field name, or a dotted `parent.child` path into a
`landlord_contact` or `lease` sub-object. -/
inductive MetaField
  | id
  | property_address
  | contact (f : ContactField)
  | leaseField (f : LeaseField)
  deriving DecidableEq, Repr

/-- Read one field of a `LandlordContact`. -/
def readContact (c : LandlordContact) : ContactField → String
  | .name => c.name
  | .phone => c.phone
  | .email => c.email
  | .other => c.other

/-- The JS computed-property write `{ ...contact, [child]: value }` for a
`landlord_contact` child. -/
def setContact (c : LandlordContact) : ContactField → String → LandlordContact
  | .name, v => { c with name := v }
  | .phone, v => { c with phone := v }
  | .email, v => { c with email := v }
  | .other, v => { c with other := v }

/-- Read one field of a `Lease`. -/
def readLease (l : Lease) : LeaseField → String
  | .start_date => l.start_date
  | .end_date => l.end_date

/-- The JS computed-property write `{ ...lease, [child]: value }` for a
`lease` child. -/
def setLease (l : Lease) : LeaseField → String → Lease
  | .start_date, v => { l with start_date := v }
  | .end_date, v => { l with end_date := v }

/-- `handleUpdateMeta` from `src/App.tsx`: for a dotted field path it
dispatches `UPDATE_META` with payload
`{ [parent]: { ...tenantCase.meta[parent], [child]: value } }` (spread of
the current sub-object, so siblings are carried along); for a flat field it
dispatches `{ [field]: value }`. -/
def handleUpdateMeta (tc : TenantCase) (field : MetaField) (value : String) : TenantCase :=
  match field with
  | .id => caseReducer tc (.updateMeta { id := some value })
  | .property_address => caseReducer tc (.updateMeta { property_address := some value })
  | .contact f =>
      caseReducer tc
        (.updateMeta { landlord_contact := some (setContact tc.meta.landlord_contact f value) })
  | .leaseField f =>
      caseReducer tc (.updateMeta { lease := some (setLease tc.meta.lease f value) })

/-- The optional `issue` object of an `AIAnalysisResponse`
(`Partial<Issue>` in `src/unnamed/part_002`): every field may be absent.
`severity` and `status` are kept at their typed values (the source casts
the response strings with `as any`). -/
structure IssuePatch where
  title : Option String := none
  category : Option String := none
  room : Option String := none
  severity : Option Severity := none
  status : Option IssueStatus := none
  first_noticed_at : Option String := none
  description : Option String := none
  habitability_categories : Option (List String) := none
  deriving DecidableEq, Repr

/-- One element of `evidence_items` in an `AIAnalysisResponse`
(`Partial<EvidenceItem>`); only `ai_caption` is consumed by
`handleCreateIssue`. -/
structure EvidencePatch where
  ai_caption : Option String := none
  deriving DecidableEq, Repr

/-- The part of `AIAnalysisResponse` (`src/unnamed/part_002`) consumed by
`handleCreateIssue`. -/
structure AIAnalysisResponse where
  issue : Option IssuePatch := none
  evidence_items : Option (List EvidencePatch) := none
  deriving DecidableEq, Repr

/-- JS `x || d` for an optional string `x`: absent or empty (falsy) gives
the default. -/
def orElseStr (o : Option String) (d : String) : String :=
  match o with
  | none => d
  | some s => if s = "" then d else s

/-- `handleCreateIssue` from `src/App.tsx`, as a function of the state it
reads and the results of its effectful steps:

* `newIssueText`, `imageBase64` — the form inputs (`imageBase64 = none`
  models `newIssueImage = null`; the guard `if (!newIssueText &&
  !newIssueImage) return` is the first branch);
* `analysis` — the outcome of `fileToBase64` plus
  `geminiService.analyzeIssueWithEvidence` (both awaited before any
  dispatch; `Except.error` models a thrown error, caught by the
  `catch` block after zero dispatches);
* `issueId`, `evidenceId` — the two `uuidv4()` draws;
* `today` — `new Date().toISOString().split('T')[0]`;
* `nowIso` — `new Date().toISOString()`.

On success it dispatches `ADD_ISSUE` with the defaulted fields, then, when
an image was supplied and the response carries at least one evidence item,
dispatches `ADD_EVIDENCE` for the first one. -/
def handleCreateIssue (tc : TenantCase) (newIssueText : String)
    (imageBase64 : Option String) (analysis : Except String AIAnalysisResponse)
    (issueId evidenceId : String) (today nowIso : String) : TenantCase :=
  if newIssueText = "" ∧ imageBase64 = none then tc
  else
    match analysis with
    | .error _ => tc
    | .ok response =>
        let newIssue : Issue :=
          { id := issueId
            title := orElseStr (response.issue.bind IssuePatch.title) "New Issue"
            category := orElseStr (response.issue.bind IssuePatch.category) "General"
            room := orElseStr (response.issue.bind IssuePatch.room) "Unknown"
            severity := (response.issue.bind IssuePatch.severity).getD .medium
            status := (response.issue.bind IssuePatch.status).getD .ongoing
            first_noticed_at :=
              orElseStr (response.issue.bind IssuePatch.first_noticed_at) today
            description := orElseStr (response.issue.bind IssuePatch.description) newIssueText
            habitability_categories :=
              (response.issue.bind IssuePatch.habitability_categories).getD [] }
        let s1 := caseReducer tc (.addIssue newIssue)
        match imageBase64, response.evidence_items with
        | some img, some (ev :: _) =>
            if img = "" then s1
            else
              caseReducer s1
                (.addEvidence
                  { id := evidenceId
                    issue_id := newIssue.id
                    file_reference := img
                    captured_at := nowIso
                    uploaded_at := nowIso
                    ai_caption := orElseStr ev.ai_caption "Evidence image"
                    user_caption := "" })
        | _, _ => s1

/-- The string form of a `CommunicationMethod`, as interpolated into the
marker tooltip text by `TimelineChart`. -/
def CommunicationMethod.str : CommunicationMethod → String
  | .text => "text"
  | .email => "email"
  | .phone => "phone"
  | .portal => "portal"
  | .inPerson => "in-person"
  | .letter => "letter"
  | .other => "other"

/-- One issue bar of the timeline (`TimelineChart` in
`src/unnamed/part_000`): `x` is the scaled start position
`x(parseDate(d.first_noticed_at))` and `width` the rendered width
`Math.max(5, w)`. -/
structure BarLayout where
  title : String
  x : ℚ
  width : ℚ
  deriving DecidableEq, Repr, Inhabited

/-- One communication marker of the timeline.  `lane = some t` places the
marker on the row of the issue titled `t` (the circle at
`cy = y(issue.title) + bandwidth/2`); `lane = none` is the dedicated
general lane above all rows (the circle at `cy = -15`).  `cx` is the
scaled date and `label` the tooltip text. -/
structure MarkerLayout where
  cx : ℚ
  lane : Option String
  label : String
  deriving DecidableEq, Repr

/-- The renderer-agnostic output of the timeline layout: the y-axis row
domain (`issues.map(d => d.title)`), the niced x time domain, the issue
bars and the communication markers. -/
structure TimelineLayout where
  rows : List String
  domainLo : Int
  domainHi : Int
  bars : List BarLayout
  markers : List MarkerLayout
  deriving DecidableEq, Repr

/-- Round `x` down to a multiple of the tick granularity `g`, the lower
half of d3's `.nice()` widening of the time domain. -/
def floorToMultiple (g x : Int) : Int := g * (x / g)

/-- Round `x` up to a multiple of the tick granularity `g`, the upper half
of d3's `.nice()` widening of the time domain. -/
def ceilToMultiple (g x : Int) : Int := -(g * (-x / g))

/-- The linear time scale `d3.scaleTime().domain([lo, hi]).range([0,
width])`: affine interpolation of a timestamp into pixel space. -/
def xScale (lo hi : Int) (width : ℚ) (t : Int) : ℚ :=
  ((t : ℚ) - (lo : ℚ)) / ((hi : ℚ) - (lo : ℚ)) * width

/-- The issues resolved from a communication's `linked_issue_ids`, in id
order: the loop `comm.linked_issue_ids.forEach(issueId => { const issue =
issues.find(i => i.id === issueId); if (issue) ... })` of
`TimelineChart`. -/
def resolvedIssues (issues : List Issue) (comm : Communication) : List Issue :=
  comm.linked_issue_ids.filterMap fun iid => issues.find? fun i => i.id == iid

/-- The markers contributed by one communication in `TimelineChart`: one
row marker per linked id that resolves to an issue, and — exactly when no
linked id resolved (the `if (!linked)` branch, which the source also takes
when `linked_issue_ids` is empty) — one marker on the general lane. -/
def commMarkers (issues : List Issue) (lo hi : Int) (width : ℚ)
    (parseDate : String → Int) (comm : Communication) : List MarkerLayout :=
  let resolved := resolvedIssues issues comm
  if resolved = [] then
    [{ cx := xScale lo hi width (parseDate comm.date)
       lane := none
       label := "General " ++ comm.method.str ++ ": " ++ comm.tenant_message }]
  else
    resolved.map fun i =>
      { cx := xScale lo hi width (parseDate comm.date)
        lane := some i.title
        label := comm.method.str ++ ": " ++ comm.tenant_message.take 30 ++ "..." }

/-- The timeline layout computed by the `useEffect` body of
`TimelineChart` (`src/unnamed/part_000`), with its ambient inputs made
explicit:

* `parseDate` — the `new Date(d)` parse, as a timestamp-valued function;
* `now` — the timestamp `new Date()` (drawn once per render in the
  source; a single value here, which is what fixing "now" means);
* `width` — `svgRef.current.clientWidth - margin.left - margin.right`;
* `g` — the tick granularity `.nice()` chooses for the domain span.

Returns `none` for the early-returning placeholder branch (`issues.length
=== 0 && communications.length === 0`).  The bar end is the source's
`d.status === 'resolved' ? new Date() : new Date()` — `now` either way. -/
def timelineLayout (issues : List Issue) (communications : List Communication)
    (parseDate : String → Int) (now : Int) (width : ℚ) (g : Int) :
    Option TimelineLayout :=
  if issues = [] ∧ communications = [] then none
  else
    let dates :=
      issues.map (fun i => parseDate i.first_noticed_at) ++
        communications.map (fun c => parseDate c.date)
    let lo := floorToMultiple g (dates.foldr min now)
    let hi := ceilToMultiple g (dates.foldr max now)
    let bars := issues.map fun i =>
      let startX := xScale lo hi width (parseDate i.first_noticed_at)
      let endT := if i.status = .resolved then now else now
      { title := i.title
        x := startX
        width := max 5 (xScale lo hi width endT - startX) : BarLayout }
    some
      { rows := issues.map Issue.title
        domainLo := lo
        domainHi := hi
        bars := bars
        markers := communications.flatMap (commMarkers issues lo hi width parseDate) }

/-! ## Sequences of append calls (for the Case Store claims) -/

/-- One of the three append operations of the Case Store, as dispatched by
the UI handlers in `src/App.tsx`. -/
inductive AddCall
  | issue (payload : Issue)
  | evidence (payload : EvidenceItem)
  | communication (payload : Communication)
  deriving Repr

/-- The reducer action an `AddCall` dispatches. -/
def AddCall.toAction : AddCall → Action
  | .issue i => .addIssue i
  | .evidence e => .addEvidence e
  | .communication c => .addCommunication c

/-- Apply a sequence of append calls to a Case, in order, through
`caseReducer`. -/
def applyCalls (tc : TenantCase) (calls : List AddCall) : TenantCase :=
  calls.foldl (fun s a => caseReducer s a.toAction) tc

/-- The issues carried by the `addIssue` calls of a sequence, in call
order. -/
def issuesOf (calls : List AddCall) : List Issue :=
  calls.filterMap fun a =>
    match a with
    | .issue i => some i
    | _ => none

/-- The evidence items carried by the `addEvidence` calls of a sequence,
in call order. -/
def evidenceOf (calls : List AddCall) : List EvidenceItem :=
  calls.filterMap fun a =>
    match a with
    | .evidence e => some e
    | _ => none

/-- The communications carried by the `addCommunication` calls of a
sequence, in call order. -/
def communicationsOf (calls : List AddCall) : List Communication :=
  calls.filterMap fun a =>
    match a with
    | .communication c => some c
    | _ => none

/-- C9: `RESET_CASE` replaces the Case with `EMPTY_CASE`: all three
collections are empty and the metadata is the fixed empty-metadata value
(empty id, empty address, empty contact fields, empty lease dates). -/
theorem reset_yields_empty_case (tc : TenantCase) :
    (caseReducer tc .resetCase).issues = []
    ∧ (caseReducer tc .resetCase).evidence = []
    ∧ (caseReducer tc .resetCase).communications = []
    ∧ (caseReducer tc .resetCase).meta =
        { id := ""
          property_address := ""
          landlord_contact := { name := "", phone := "", email := "", other := "" }
          lease := { start_date := "", end_date := "" } } :=
  ⟨rfl, rfl, rfl, rfl⟩

/-- C8: a sequence of `addIssue`/`addEvidence`/`addCommunication` calls
appends exactly its payloads, at the end, in call order, to the targeted
collection, leaves the other two collections and the metadata untouched,
and grows each collection's length by the number of calls targeting it. -/
theorem add_calls_append (tc : TenantCase) (calls : List AddCall) :
    (applyCalls tc calls).issues = tc.issues ++ issuesOf calls
    ∧ (applyCalls tc calls).evidence = tc.evidence ++ evidenceOf calls
    ∧ (applyCalls tc calls).communications =
        tc.communications ++ communicationsOf calls
    ∧ (applyCalls tc calls).meta = tc.meta
    ∧ (applyCalls tc calls).issues.length =
        tc.issues.length + (issuesOf calls).length
    ∧ (applyCalls tc calls).evidence.length =
        tc.evidence.length + (evidenceOf calls).length
    ∧ (applyCalls tc calls).communications.length =
        tc.communications.length + (communicationsOf calls).length := by
  have main :
      (applyCalls tc calls).issues = tc.issues ++ issuesOf calls
      ∧ (applyCalls tc calls).evidence = tc.evidence ++ evidenceOf calls
      ∧ (applyCalls tc calls).communications =
          tc.communications ++ communicationsOf calls
      ∧ (applyCalls tc calls).meta = tc.meta := by
    induction calls generalizing tc with
    | nil =>
        simp [applyCalls, issuesOf, evidenceOf, communicationsOf]
    | cons a rest ih =>
        have hstep :
            applyCalls tc (a :: rest) = applyCalls (caseReducer tc a.toAction) rest := rfl
        cases a with
        | issue i =>
            obtain ⟨h1, h2, h3, h4⟩ := ih (caseReducer tc (AddCall.issue i).toAction)
            rw [hstep]
            refine ⟨?_, ?_, ?_, ?_⟩ <;>
              simp_all [caseReducer, AddCall.toAction, issuesOf, evidenceOf,
                communicationsOf]
        | evidence e =>
            obtain ⟨h1, h2, h3, h4⟩ := ih (caseReducer tc (AddCall.evidence e).toAction)
            rw [hstep]
            refine ⟨?_, ?_, ?_, ?_⟩ <;>
              simp_all [caseReducer, AddCall.toAction, issuesOf, evidenceOf,
                communicationsOf]
        | communication c =>
            obtain ⟨h1, h2, h3, h4⟩ :=
              ih (caseReducer tc (AddCall.communication c).toAction)
            rw [hstep]
            refine ⟨?_, ?_, ?_, ?_⟩ <;>
              simp_all [caseReducer, AddCall.toAction, issuesOf, evidenceOf,
                communicationsOf]
  obtain ⟨h1, h2, h3, h4⟩ := main
  exact ⟨h1, h2, h3, h4, by rw [h1]; simp, by rw [h2]; simp, by rw [h3]; simp⟩

/-- C6: when the classifier collaborator call errors, `handleCreateIssue`
leaves the Case exactly unchanged: no issue, no evidence, no partial
mutation. -/
theorem classifier_error_leaves_case_unchanged (tc : TenantCase) (text : String)
    (img : Option String) (err : String) (issueId evidenceId today nowIso : String) :
    handleCreateIssue tc text img (.error err) issueId evidenceId today nowIso = tc := by
  unfold handleCreateIssue
  split <;> rfl

/-- C7: `handleUpdateMeta` on a single nested metadata field merges rather
than replaces: all sibling fields of the same sub-object, the other
sub-object, the flat metadata fields, and the three collections keep their
previous values. -/
theorem nested_update_preserves_siblings (tc : TenantCase) (v : String) :
    (∀ f g : ContactField, g ≠ f →
      readContact (handleUpdateMeta tc (.contact f) v).meta.landlord_contact g
        = readContact tc.meta.landlord_contact g)
    ∧ (∀ f : ContactField,
        readContact (handleUpdateMeta tc (.contact f) v).meta.landlord_contact f = v
        ∧ (handleUpdateMeta tc (.contact f) v).meta.lease = tc.meta.lease
        ∧ (handleUpdateMeta tc (.contact f) v).meta.id = tc.meta.id
        ∧ (handleUpdateMeta tc (.contact f) v).meta.property_address
            = tc.meta.property_address
        ∧ (handleUpdateMeta tc (.contact f) v).issues = tc.issues
        ∧ (handleUpdateMeta tc (.contact f) v).evidence = tc.evidence
        ∧ (handleUpdateMeta tc (.contact f) v).communications = tc.communications)
    ∧ (∀ f g : LeaseField, g ≠ f →
      readLease (handleUpdateMeta tc (.leaseField f) v).meta.lease g
        = readLease tc.meta.lease g)
    ∧ (∀ f : LeaseField,
        readLease (handleUpdateMeta tc (.leaseField f) v).meta.lease f = v
        ∧ (handleUpdateMeta tc (.leaseField f) v).meta.landlord_contact
            = tc.meta.landlord_contact
        ∧ (handleUpdateMeta tc (.leaseField f) v).meta.id = tc.meta.id
        ∧ (handleUpdateMeta tc (.leaseField f) v).meta.property_address
            = tc.meta.property_address
        ∧ (handleUpdateMeta tc (.leaseField f) v).issues = tc.issues
        ∧ (handleUpdateMeta tc (.leaseField f) v).evidence = tc.evidence
        ∧ (handleUpdateMeta tc (.leaseField f) v).communications
            = tc.communications) := by
  refine ⟨?_, ?_, ?_, ?_⟩
  · intro f g hgf
    cases f <;> cases g <;> first | exact absurd rfl hgf | rfl
  · intro f
    cases f <;> exact ⟨rfl, rfl, rfl, rfl, rfl, rfl, rfl⟩
  · intro f g hgf
    cases f <;> cases g <;> first | exact absurd rfl hgf | rfl
  · intro f
    cases f <;> exact ⟨rfl, rfl, rfl, rfl, rfl, rfl, rfl⟩

/-- A sample Case with a populated landlord contact, used to instantiate
the nested-merge theorem. -/
def sampleCase : TenantCase :=
  { EMPTY_CASE with
      meta :=
        { EMPTY_CASE.meta with
            landlord_contact := { name := "Alice", phone := "111", email := "", other := "" } } }

/-- Witness for the nested-merge theorem: updating
`landlord_contact.phone` to `"555"` on `sampleCase` preserves
`landlord_contact.name = "Alice"`. -/
theorem nested_update_preserves_siblings_witness :
    readContact
        (handleUpdateMeta sampleCase (.contact .phone) "555").meta.landlord_contact
        ContactField.name = "Alice" :=
  ((nested_update_preserves_siblings sampleCase "555").1 ContactField.phone
      ContactField.name (by decide)).trans rfl

/-- C5: when every issue field of the classifier response is absent, the
created Issue carries exactly the documented defaults: title `"New
Issue"`, category `"General"`, room `"Unknown"`, severity `medium`, status
`ongoing`, `first_noticed_at` = today, description = the caller's original
input text, and empty habitability categories. -/
theorem classifier_empty_response_defaults (tc : TenantCase) (text : String)
    (img : Option String) (resp : AIAnalysisResponse)
    (issueId evidenceId today nowIso : String)
    (hrun : ¬(text = "" ∧ img = none))
    (h1 : resp.issue.bind IssuePatch.title = none)
    (h2 : resp.issue.bind IssuePatch.category = none)
    (h3 : resp.issue.bind IssuePatch.room = none)
    (h4 : resp.issue.bind IssuePatch.severity = none)
    (h5 : resp.issue.bind IssuePatch.status = none)
    (h6 : resp.issue.bind IssuePatch.first_noticed_at = none)
    (h7 : resp.issue.bind IssuePatch.description = none)
    (h8 : resp.issue.bind IssuePatch.habitability_categories = none) :
    (handleCreateIssue tc text img (.ok resp) issueId evidenceId today nowIso).issues
      = tc.issues ++
          [{ id := issueId
             title := "New Issue"
             category := "General"
             room := "Unknown"
             severity := .medium
             status := .ongoing
             first_noticed_at := today
             description := text
             habitability_categories := [] }] := by
  unfold handleCreateIssue
  rw [if_neg hrun]
  rcases img with _ | i
  · simp [caseReducer, h1, h2, h3, h4, h5, h6, h7, h8, orElseStr]
  · rcases hev : resp.evidence_items with _ | ⟨_ | ⟨ev, rest⟩⟩ <;>
      simp only [hev] <;>
      first
        | (split <;> simp [caseReducer, h1, h2, h3, h4, h5, h6, h7, h8, orElseStr])
        | simp [caseReducer, h1, h2, h3, h4, h5, h6, h7, h8, orElseStr]

/-- C10: any evidence item that `handleCreateIssue` appends references the
issue appended by the same invocation (same fresh id), the issue is indeed
appended (so the evidence never dangles), evidence is appended only when
an image was supplied and the classifier returned at least one evidence
item, and at most one evidence item is appended. -/
theorem create_issue_evidence_links_new_issue (tc : TenantCase) (text : String)
    (img : Option String) (analysis : Except String AIAnalysisResponse)
    (issueId evidenceId today nowIso : String) (ev : EvidenceItem)
    (hev : ev ∈ (handleCreateIssue tc text img analysis issueId evidenceId today
        nowIso).evidence)
    (hnew : ev ∉ tc.evidence) :
    ev.issue_id = issueId
    ∧ (∃ iss : Issue,
        (handleCreateIssue tc text img analysis issueId evidenceId today
            nowIso).issues = tc.issues ++ [iss]
        ∧ iss.id = issueId)
    ∧ (∃ i, img = some i ∧ i ≠ "")
    ∧ (∃ resp evPatch rest, analysis = .ok resp
        ∧ resp.evidence_items = some (evPatch :: rest))
    ∧ (handleCreateIssue tc text img analysis issueId evidenceId today
        nowIso).evidence = tc.evidence ++ [ev] := by
  unfold handleCreateIssue at hev ⊢
  by_cases hguard : text = "" ∧ img = none
  · rw [if_pos hguard] at hev
    exact absurd hev hnew
  · rw [if_neg hguard] at hev ⊢
    rcases analysis with err | resp
    · exact absurd hev hnew
    · rcases himg : img with _ | i
      · subst himg
        simp [caseReducer] at hev
        exact absurd hev hnew
      · subst himg
        rcases hevs : resp.evidence_items with _ | ⟨_ | ⟨evPatch, rest⟩⟩ <;>
          simp only [hevs] at hev ⊢
        · simp [caseReducer] at hev
          exact absurd hev hnew
        · simp [caseReducer] at hev
          exact absurd hev hnew
        · by_cases hi : i = ""
          · rw [if_pos hi] at hev ⊢
            simp [caseReducer] at hev
            exact absurd hev hnew
          · rw [if_neg hi] at hev ⊢
            simp only [caseReducer, List.mem_append, List.mem_singleton] at hev
            rcases hev with hold | heq
            · exact absurd hold hnew
            · subst heq
              refine ⟨rfl, ⟨_, rfl, rfl⟩, ⟨i, rfl, hi⟩,
                ⟨resp, evPatch, rest, rfl, hevs⟩, rfl⟩

/-- A classifier response with every field absent (the "empty object"
response of the end-to-end scenario). -/
def emptyResponse : AIAnalysisResponse := { issue := none, evidence_items := none }

/-- Witness for the classifier-defaults theorem: input text
`"ceiling mold"`, no image, empty classifier response. -/
theorem classifier_empty_response_defaults_witness :
    (handleCreateIssue EMPTY_CASE "ceiling mold" none (.ok emptyResponse)
        "I1" "E1" "2024-05-01" "2024-05-01T00:00:00Z").issues
      = EMPTY_CASE.issues ++
          [{ id := "I1"
             title := "New Issue"
             category := "General"
             room := "Unknown"
             severity := .medium
             status := .ongoing
             first_noticed_at := "2024-05-01"
             description := "ceiling mold"
             habitability_categories := [] }] :=
  classifier_empty_response_defaults EMPTY_CASE "ceiling mold" none emptyResponse
    "I1" "E1" "2024-05-01" "2024-05-01T00:00:00Z" (by decide)
    rfl rfl rfl rfl rfl rfl rfl rfl

/-- A classifier response carrying one evidence item, used to drive the
evidence-appending branch of `handleCreateIssue`. -/
def evidenceResponse : AIAnalysisResponse :=
  { issue := none, evidence_items := some [{ ai_caption := some "wet ceiling" }] }

/-- The evidence item `handleCreateIssue` appends for `evidenceResponse`
with image payload `"imgdata"` and fresh ids `"I1"` / `"E1"`. -/
def witnessEvidence : EvidenceItem :=
  { id := "E1"
    issue_id := "I1"
    file_reference := "imgdata"
    captured_at := "2024-05-01T00:00:00Z"
    uploaded_at := "2024-05-01T00:00:00Z"
    ai_caption := "wet ceiling"
    user_caption := "" }

/-- Witness for the evidence-link theorem, at a concrete flow that appends
one evidence item. -/
theorem create_issue_evidence_links_new_issue_witness :
    witnessEvidence.issue_id = "I1" :=
  (create_issue_evidence_links_new_issue EMPTY_CASE "leak" (some "imgdata")
      (.ok evidenceResponse) "I1" "E1" "2024-05-01" "2024-05-01T00:00:00Z"
      witnessEvidence (by decide) (by decide)).1

/-! ## Timeline layout lemmas -/

lemma foldr_min_le_init (l : List Int) (b : Int) : l.foldr min b ≤ b := by
  induction l with
  | nil => simp
  | cons a t ih => simpa using le_trans (min_le_right a _) ih

lemma foldr_min_le_mem {l : List Int} {a : Int} (h : a ∈ l) (b : Int) :
    l.foldr min b ≤ a := by
  induction l with
  | nil => cases h
  | cons x t ih =>
      rcases List.mem_cons.mp h with rfl | h'
      · exact min_le_left _ _
      · exact le_trans (min_le_right _ _) (ih h')

lemma le_foldr_max_init (l : List Int) (b : Int) : b ≤ l.foldr max b := by
  induction l with
  | nil => simp
  | cons a t ih => simpa using le_trans ih (le_max_right a _)

lemma le_foldr_max_mem {l : List Int} {a : Int} (h : a ∈ l) (b : Int) :
    a ≤ l.foldr max b := by
  induction l with
  | nil => cases h
  | cons x t ih =>
      rcases List.mem_cons.mp h with rfl | h'
      · exact le_max_left _ _
      · exact le_trans (ih h') (le_max_right _ _)

lemma floorToMultiple_le {g : Int} (hg : 0 < g) (x : Int) :
    floorToMultiple g x ≤ x := by
  have h1 := Int.ediv_add_emod x g
  have h2 := Int.emod_nonneg x (ne_of_gt hg)
  unfold floorToMultiple
  linarith

lemma le_ceilToMultiple {g : Int} (hg : 0 < g) (x : Int) :
    x ≤ ceilToMultiple g x := by
  have h1 := floorToMultiple_le hg (-x)
  unfold floorToMultiple at h1
  unfold ceilToMultiple
  linarith

/-- C2: the timeline layout is a deterministic (pure) function of the
issue list, the communication list, the date parse, `now`, the chart
width and the tick granularity: identical inputs give identical
layouts. -/
theorem timeline_layout_deterministic (i1 i2 : List Issue)
    (c1 c2 : List Communication) (p1 p2 : String → Int) (n1 n2 : Int)
    (w1 w2 : ℚ) (g1 g2 : Int)
    (hi : i1 = i2) (hc : c1 = c2) (hp : p1 = p2) (hn : n1 = n2)
    (hw : w1 = w2) (hg : g1 = g2) :
    timelineLayout i1 c1 p1 n1 w1 g1 = timelineLayout i2 c2 p2 n2 w2 g2 := by
  subst hi; subst hc; subst hp; subst hn; subst hw; subst hg; rfl

/-- A fixed date parse for concrete instantiations. -/
def constParse : String → Int := fun _ => 0

/-- A concrete issue for instantiating the timeline theorems. -/
def wIssueA : Issue :=
  { id := "A", title := "TA", category := "General", room := "Kitchen"
    severity := .high, status := .ongoing, first_noticed_at := "2024-01-01"
    description := "leak", habitability_categories := [] }

/-- A second concrete issue. -/
def wIssueB : Issue :=
  { id := "B", title := "TB", category := "General", room := "Bath"
    severity := .low, status := .resolved, first_noticed_at := "2024-01-02"
    description := "mold", habitability_categories := [] }

/-- A concrete communication linked to both `wIssueA` and `wIssueB`. -/
def wCommAB : Communication :=
  { id := "c1", date := "2024-02-01", method := .email
    tenant_message := "hello", landlord_response := ""
    linked_issue_ids := ["A", "B"], promises := [] }

/-- Witness for determinism, at a concrete input. -/
theorem timeline_layout_deterministic_witness :
    timelineLayout [wIssueA, wIssueB] [wCommAB] constParse 0 800 1
      = timelineLayout [wIssueA, wIssueB] [wCommAB] constParse 0 800 1 :=
  timeline_layout_deterministic [wIssueA, wIssueB] [wIssueA, wIssueB]
    [wCommAB] [wCommAB] constParse constParse 0 0 800 800 1 1
    rfl rfl rfl rfl rfl rfl

/-- C3: each issue's bar starts at the scaled `first_noticed_at` and its
width is `max 5` of the extent up to the scaled `now` — the same formula
for every `status`, so resolved issues are not shortened — and every
rendered bar width is at least the enforced non-zero minimum `5`. -/
theorem bar_extents_min_width (issues : List Issue) (comms : List Communication)
    (parseDate : String → Int) (now : Int) (width : ℚ) (g : Int)
    (lay : TimelineLayout)
    (h : timelineLayout issues comms parseDate now width g = some lay) :
    lay.bars = (issues.map fun i =>
      { title := i.title
        x := xScale lay.domainLo lay.domainHi width (parseDate i.first_noticed_at)
        width := max 5 (xScale lay.domainLo lay.domainHi width now
          - xScale lay.domainLo lay.domainHi width (parseDate i.first_noticed_at)) })
    ∧ ∀ b ∈ lay.bars, (5 : ℚ) ≤ b.width ∧ (0 : ℚ) < b.width := by
  unfold timelineLayout at h
  split at h
  · exact Option.noConfusion h
  · injection h with h'
    subst h'
    constructor
    · simp only [ite_self]
    · intro b hb
      simp only [List.mem_map] at hb
      obtain ⟨i, _, rfl⟩ := hb
      refine ⟨le_max_left _ _, lt_of_lt_of_le (by norm_num) (le_max_left _ _)⟩

/-- Witness for the bar-extents theorem: the concrete layout's first bar
(a same-day bar, clamped to the minimum) has width at least `5 > 0`. -/
theorem bar_extents_min_width_witness :
    (5 : ℚ) ≤ (((timelineLayout [wIssueA, wIssueB] [wCommAB] constParse 0 800 1).getD
        { rows := [], domainLo := 0, domainHi := 0, bars := [], markers := [] }).bars.head!).width
    ∧ (0 : ℚ) < (((timelineLayout [wIssueA, wIssueB] [wCommAB] constParse 0 800 1).getD
        { rows := [], domainLo := 0, domainHi := 0, bars := [], markers := [] }).bars.head!).width :=
  (bar_extents_min_width [wIssueA, wIssueB] [wCommAB] constParse 0 800 1 _ rfl).2 _
    (List.head!_mem_self (by simp [timelineLayout]))

/-- C4: the niced time domain of the layout contains every issue's
`first_noticed_at`, every communication's `date`, and `now`, on both
sides. -/
theorem domain_inclusion (issues : List Issue) (comms : List Communication)
    (parseDate : String → Int) (now : Int) (width : ℚ) (g : Int)
    (lay : TimelineLayout) (hg : 0 < g)
    (h : timelineLayout issues comms parseDate now width g = some lay) :
    (∀ i ∈ issues, lay.domainLo ≤ parseDate i.first_noticed_at
        ∧ parseDate i.first_noticed_at ≤ lay.domainHi)
    ∧ (∀ c ∈ comms, lay.domainLo ≤ parseDate c.date
        ∧ parseDate c.date ≤ lay.domainHi)
    ∧ lay.domainLo ≤ now ∧ now ≤ lay.domainHi := by
  unfold timelineLayout at h
  split at h
  · exact Option.noConfusion h
  · injection h with h'
    subst h'
    simp only
    refine ⟨?_, ?_, ?_, ?_⟩
    · intro i hi
      have hmem : parseDate i.first_noticed_at ∈
          (issues.map fun i => parseDate i.first_noticed_at) ++
            comms.map fun c => parseDate c.date :=
        List.mem_append_left _ (List.mem_map_of_mem _ hi)
      exact ⟨le_trans (floorToMultiple_le hg _) (foldr_min_le_mem hmem now),
        le_trans (le_foldr_max_mem hmem now) (le_ceilToMultiple hg _)⟩
    · intro c hc
      have hmem : parseDate c.date ∈
          (issues.map fun i => parseDate i.first_noticed_at) ++
            comms.map fun c => parseDate c.date :=
        List.mem_append_right _ (List.mem_map_of_mem _ hc)
      exact ⟨le_trans (floorToMultiple_le hg _) (foldr_min_le_mem hmem now),
        le_trans (le_foldr_max_mem hmem now) (le_ceilToMultiple hg _)⟩
    · exact le_trans (floorToMultiple_le hg _) (foldr_min_le_init _ now)
    · exact le_trans (le_foldr_max_init _ now) (le_ceilToMultiple hg _)

/-- Witness for domain inclusion at a concrete layout: the computed lower
endpoint is at most `now = 0`. -/
theorem domain_inclusion_witness :
    ((timelineLayout [wIssueA, wIssueB] [wCommAB] constParse 0 800 1).getD
        { rows := [], domainLo := 0, domainHi := 0, bars := [], markers := [] }).domainLo
      ≤ 0 :=
  (domain_inclusion [wIssueA, wIssueB] [wCommAB] constParse 0 800 1 _
      (by norm_num) rfl).2.2.1

/-- A communication whose only linked issue id resolves to no issue. -/
def cGhost : Communication :=
  { id := "c9", date := "2024-02-01", method := .phone
    tenant_message := "call", landlord_response := ""
    linked_issue_ids := ["ghost"], promises := [] }

/-- C1 counterexample: `cGhost` has a non-empty `linked_issue_ids` whose
only id is unresolvable, yet the layout places one marker for it — on the
general lane — rather than the zero markers the claim requires, and the
general lane is used although `linked_issue_ids` is not empty. -/
theorem marker_general_lane_counterexample :
    cGhost.linked_issue_ids ≠ []
    ∧ (timelineLayout [] [cGhost] constParse 0 800 1).map
        (fun lay => lay.markers.map MarkerLayout.lane) = some [none]
    ∧ (timelineLayout [] [cGhost] constParse 0 800 1).map
        (fun lay => lay.markers.length) = some 1 :=
  ⟨by decide, rfl, rfl⟩

/-- C1 (amended): for every communication, the layout places one marker
per linked id that resolves to an issue, on that issue's row at the
communication's scaled date, and places one marker on the general lane
exactly when no linked id resolves (so also when all linked ids are
unresolvable, not only when `linked_issue_ids` is empty); unresolvable
ids contribute no marker, and the total marker count is the sum of the
per-communication counts. -/
theorem marker_fanout_amended (issues : List Issue) (comms : List Communication)
    (parseDate : String → Int) (now : Int) (width : ℚ) (g : Int)
    (lay : TimelineLayout)
    (h : timelineLayout issues comms parseDate now width g = some lay) :
    lay.markers.length
      = (comms.map fun c =>
          if resolvedIssues issues c = [] then 1
          else (resolvedIssues issues c).length).sum
    ∧ (∀ c ∈ comms, ∀ i ∈ resolvedIssues issues c,
        ({ cx := xScale lay.domainLo lay.domainHi width (parseDate c.date)
           lane := some i.title
           label := c.method.str ++ ": " ++ c.tenant_message.take 30 ++ "..." }
          : MarkerLayout) ∈ lay.markers)
    ∧ (∀ c ∈ comms, resolvedIssues issues c = [] →
        ({ cx := xScale lay.domainLo lay.domainHi width (parseDate c.date)
           lane := none
           label := "General " ++ c.method.str ++ ": " ++ c.tenant_message }
          : MarkerLayout) ∈ lay.markers)
    ∧ (∀ m ∈ lay.markers, m.lane = none →
        ∃ c ∈ comms, resolvedIssues issues c = []
          ∧ m.cx = xScale lay.domainLo lay.domainHi width (parseDate c.date))
    ∧ (∀ m ∈ lay.markers, ∀ t, m.lane = some t →
        ∃ c ∈ comms, ∃ i ∈ resolvedIssues issues c, i.title = t
          ∧ m.cx = xScale lay.domainLo lay.domainHi width (parseDate c.date)) := by
  unfold timelineLayout at h
  split at h
  · exact Option.noConfusion h
  · injection h with h'
    subst h'
    refine ⟨?_, ?_, ?_, ?_, ?_⟩
    · show (List.flatMap _ _).length = _
      rw [List.length_flatMap]
      refine congrArg List.sum ?_
      apply List.map_congr_left
      intro c _
      simp only [Function.comp_apply, commMarkers]
      split
      · simp_all
      · simp_all [List.length_map]
    · intro c hc i hi
      apply List.mem_flatMap.mpr
      refine ⟨c, hc, ?_⟩
      simp only [commMarkers]
      rw [if_neg (by intro hempty; rw [hempty] at hi; cases hi)]
      exact List.mem_map_of_mem _ hi
    · intro c hc hres
      apply List.mem_flatMap.mpr
      refine ⟨c, hc, ?_⟩
      simp only [commMarkers]
      rw [if_pos hres]
      exact List.mem_singleton.mpr rfl
    · intro m hm hlane
      obtain ⟨c, hc, hmc⟩ := List.mem_flatMap.mp hm
      simp only [commMarkers] at hmc
      by_cases hres : resolvedIssues issues c = []
      · rw [if_pos hres] at hmc
        obtain rfl := List.mem_singleton.mp hmc
        exact ⟨c, hc, hres, rfl⟩
      · rw [if_neg hres] at hmc
        obtain ⟨i, _, rfl⟩ := List.mem_map.mp hmc
        exact Option.noConfusion hlane
    · intro m hm t hlane
      obtain ⟨c, hc, hmc⟩ := List.mem_flatMap.mp hm
      simp only [commMarkers] at hmc
      by_cases hres : resolvedIssues issues c = []
      · rw [if_pos hres] at hmc
        obtain rfl := List.mem_singleton.mp hmc
        exact Option.noConfusion hlane
      · rw [if_neg hres] at hmc
        obtain ⟨i, hi, rfl⟩ := List.mem_map.mp hmc
        exact ⟨c, hc, i, hi, Option.some.inj hlane, rfl⟩

/-- Witness for the amended marker theorem: with both linked issues
resolvable, the concrete layout's marker count equals the per-communication
sum (here `2`). -/
theorem marker_fanout_amended_witness :
    ((timelineLayout [wIssueA, wIssueB] [wCommAB] constParse 0 800 1).getD
        { rows := [], domainLo := 0, domainHi := 0, bars := [], markers := [] }).markers.length
      = ([wCommAB].map fun c =>
          if resolvedIssues [wIssueA, wIssueB] c = [] then 1
          else (resolvedIssues [wIssueA, wIssueB] c).length).sum :=
  (marker_fanout_amended [wIssueA, wIssueB] [wCommAB] constParse 0 800 1 _ rfl).1

end TenantVoice
